import Mathlib

/-
Shallow embedding of the OBC event-hub consumer client
(src/eventhub/consumer/consumer.go, package consumer).

The client owns one subscription: `Start` dials the peer, opens a Chat
stream, runs the registration handshake (`register`) and, on success,
spawns the receive loop (`processEvents`). `Stop` half-closes the
outbound direction. The embedding models the stream as the list of
results its successive `Recv` calls produce, records the calls made on
the adapter as an explicit trace, and keeps the Go error values as
strings built exactly as the source builds them.
-/

namespace Consumer

/-- Interest descriptor (`ehpb.InterestedEvent`): opaque to the consumer
code, which only passes it through to the registration request. -/
structure InterestedEvent where
  eventType : String
deriving DecidableEq, Repr

/-- The variants of the `Event` oneof of `ehpb.EventHubMessage` as the
consumer's `switch in.Event.(type)` distinguishes them: a
`RegisterEvent` (registration acknowledgement), a `TransactionEvent`
(event payload, carrying an opaque payload the consumer never inspects),
a nil `Event` field, and any other variant (the switch's `default`). -/
inductive EventVariant where
  | registerEvent (ies : List InterestedEvent)
  | transactionEvent (payload : String)
  | nilEvent
  | otherEvent
deriving DecidableEq, Repr

/-- A frame on the stream (`ehpb.EventHubMessage`). -/
structure EventHubMessage where
  event : EventVariant
deriving DecidableEq, Repr

/-- A non-nil Go `error` value, identified by its message. `io.EOF` is
not represented here: the places where the source compares against
`io.EOF` model end-of-stream as a separate constructor instead. -/
inductive GoErr where
  | mk (msg : String)
deriving DecidableEq, Repr

/-- The `EventAdapter` interface: `GetInterestedEvents` returns a Go
slice, which can be nil (`none`) or a possibly empty list (`some`);
`Recv` returns nil (`none`) or an error. `Done` returns nothing and is
represented only by the call trace the receive loop produces. -/
structure EventAdapter where
  getInterestedEvents : Option (List InterestedEvent)
  recv : EventHubMessage → Option GoErr

/-- One call made on the adapter by the receive loop. -/
inductive Call where
  | recvCall (m : EventHubMessage)
  | doneCall (e : Option GoErr)
deriving DecidableEq, Repr

/-- One result of a `stream.Recv()` call inside the receive loop: a
message, end of stream (`io.EOF`), or another receive error. -/
inductive RecvStep where
  | msgStep (m : EventHubMessage)
  | eofStep
  | errStep (e : GoErr)
deriving DecidableEq, Repr

/-- Which branch of `processEvents` exited the loop: the `err == io.EOF`
branch, the `err != nil` branch, the branch where `adapter.Recv`
returned an error, or no exit at all because the modelled stream list
was exhausted (the real loop would block in `Recv`). -/
inductive ExitCause where
  | eofExit
  | recvErrExit (e : GoErr)
  | handlerErrExit (e : GoErr)
  | blocked
deriving DecidableEq, Repr

/-- The value `processEvents` returns for each exit cause, read off the
source's `return` statements: nil after `io.EOF`, the receive error
after a receive failure, the handler's error after `adapter.Recv`
failed; `none` when the loop has not exited. -/
def loopReturn : ExitCause → Option (Option GoErr)
  | ExitCause.eofExit => some none
  | ExitCause.recvErrExit e => some (some e)
  | ExitCause.handlerErrExit e => some (some e)
  | ExitCause.blocked => none

/-- Mirrors `OBCEventClient.processEvents`: repeatedly `Recv`; on
`io.EOF` call `Done(nil)` (only if the adapter is non-nil) and return
nil; on another receive error call `Done(err)` (only if the adapter is
non-nil) and return it; on a message, if the adapter is non-nil forward
it to `adapter.Recv` and return that error if non-nil, otherwise (or if
the adapter is nil) continue the loop. Returns the trace of adapter
calls together with the exit cause. -/
def processEvents (ad : Option EventAdapter) : List RecvStep → List Call × ExitCause
  | [] => ([], ExitCause.blocked)
  | RecvStep.eofStep :: _ =>
      ((match ad with | some _ => [Call.doneCall none] | none => []), ExitCause.eofExit)
  | RecvStep.errStep e :: _ =>
      ((match ad with | some _ => [Call.doneCall (some e)] | none => []),
       ExitCause.recvErrExit e)
  | RecvStep.msgStep m :: rest =>
      match ad with
      | none => processEvents none rest
      | some a =>
        match a.recv m with
        | some e => ([Call.recvCall m], ExitCause.handlerErrExit e)
        | none =>
          (Call.recvCall m :: (processEvents (some a) rest).1,
           (processEvents (some a) rest).2)

/-- What `register`'s single goroutine `Recv` produced, when it produced
anything at all before the 5 second timer decided the select. -/
inductive RecvOutcome where
  | recvMsg (m : EventHubMessage)
  | recvErr (e : GoErr)
deriving DecidableEq, Repr

/-- The outcome of the select in `register`: either the goroutine's
signal on `regChan` arrived first (carrying its `Recv` outcome), or the
5 second `time.After` timer fired first. -/
inductive HandshakeInput where
  | arrived (r : RecvOutcome)
  | timedOut
deriving DecidableEq, Repr

/-- Mirrors `OBCEventClient.register`: send the `RegisterEvent` frame
(a send error is returned at once); otherwise race the goroutine's
`Recv`-and-classify against the 5 second timer. Timeout yields the
"timeout waiting for registration" error; a `Recv` error is returned
as-is; a received frame is classified by its variant exactly as the
source's type switch does. -/
def register (ies : List InterestedEvent) (sendErr : Option GoErr)
    (hin : HandshakeInput) : Option GoErr :=
  let _emsg : EventHubMessage := ⟨EventVariant.registerEvent ies⟩
  match sendErr with
  | some e => some e
  | none =>
    match hin with
    | HandshakeInput.timedOut => some (GoErr.mk "timeout waiting for registration")
    | HandshakeInput.arrived (RecvOutcome.recvErr e) => some e
    | HandshakeInput.arrived (RecvOutcome.recvMsg m) =>
      match m.event with
      | EventVariant.registerEvent _ => none
      | EventVariant.transactionEvent _ =>
          some (GoErr.mk "invalid Transaction object for register")
      | EventVariant.nilEvent => some (GoErr.mk "invalid nil object for register")
      | EventVariant.otherEvent => some (GoErr.mk "invalid registration object")

/-- Whether `register`'s helper goroutine ever terminates, as a function
of whether the select took the timeout branch and of what the
goroutine's `Recv` produced. When `Recv` fails, the goroutine returns
before touching `regChan` again and its deferred `close(regChan)` runs,
so it terminates. When `Recv` yields a frame, the goroutine classifies
it and then executes `regChan <- struct\x7b\x7d\x7b\x7d`; `regChan` is
unbuffered and its only receive is the select's first case, so if the
select already took the timeout branch no receiver ever exists and the
send blocks forever: the goroutine never terminates (the deferred close
never runs either). -/
def helperTerminates (timedOut : Bool) (r : RecvOutcome) : Bool :=
  match timedOut, r with
  | false, _ => true
  | true, RecvOutcome.recvErr _ => true
  | true, RecvOutcome.recvMsg _ => false

/-- A network-visible action `Start` performs, in order: the grpc dial
(`newEventHubClientConnectionWithAddress`), opening the Chat stream, and
sending the registration frame. -/
inductive NetAction where
  | dial
  | openStream
  | sendFrame (m : EventHubMessage)
deriving DecidableEq, Repr

/-- Results of the external calls `Start` makes, which the embedding
takes as parameters: the dial, the `Chat` stream open, the registration
`Send`, and the handshake select outcome. -/
structure StartEnv where
  dialErr : Option GoErr
  chatErr : Option GoErr
  sendErr : Option GoErr
  hin : HandshakeInput
deriving Repr

/-- How `Start` ends: normal return of nil, normal return of an error,
or a runtime panic (nil-interface method call). -/
inductive StartResult where
  | ok
  | err (e : GoErr)
  | panics
deriving DecidableEq, Repr

/-- What one `Start` call did: the network actions it performed in
order, how it ended, and whether it spawned the receive-loop goroutine
(`go ec.processEvents()`), which is the only place `Done` can ever be
called from. -/
structure StartOutcome where
  acts : List NetAction
  result : StartResult
  loopStarted : Bool
deriving DecidableEq, Repr

/-- The client record: peer address and the adapter handed to
`NewOBCEventHubClient` (`none` models a nil `EventAdapter` interface).
The stream field is modelled separately, as the `RecvStep` list and the
`StreamHandle` below. -/
structure OBCEventClient where
  peerAddress : String
  adapter : Option EventAdapter

/-- The connection error message `Start` builds for a failed dial and,
identically, for a failed `Chat` call. -/
def connErr (addr : String) : GoErr :=
  GoErr.mk ("Could not create client conn to " ++ addr)

/-- Mirrors `OBCEventClient.Start`: dial first (failure returns the
connection error); then call `ec.adapter.GetInterestedEvents()` — a nil
adapter interface makes this call panic; return "no interested events"
only when the returned slice is nil; then open the Chat stream (failure
returns the connection error); then run `register` and return its error
if any; finally spawn `processEvents` and return nil. -/
def Start (c : OBCEventClient) (env : StartEnv) : StartOutcome :=
  match env.dialErr with
  | some _ => ⟨[NetAction.dial], StartResult.err (connErr c.peerAddress), false⟩
  | none =>
    match c.adapter with
    | none => ⟨[NetAction.dial], StartResult.panics, false⟩
    | some ad =>
      match ad.getInterestedEvents with
      | none => ⟨[NetAction.dial], StartResult.err (GoErr.mk "no interested events"), false⟩
      | some ies =>
        match env.chatErr with
        | some _ =>
            ⟨[NetAction.dial, NetAction.openStream],
             StartResult.err (connErr c.peerAddress), false⟩
        | none =>
          let emsg : EventHubMessage := ⟨EventVariant.registerEvent ies⟩
          match register ies env.sendErr env.hin with
          | some e =>
              ⟨[NetAction.dial, NetAction.openStream, NetAction.sendFrame emsg],
               StartResult.err e, false⟩
          | none =>
              ⟨[NetAction.dial, NetAction.openStream, NetAction.sendFrame emsg],
               StartResult.ok, true⟩

/-- An established stream as `Stop` sees it: the only thing `Stop` does
with it is call `CloseSend`, whose result this field carries. -/
structure StreamHandle where
  closeSendErr : Option GoErr
deriving DecidableEq, Repr

/-- How a `Stop` call ends: a normal return (of nil or an error) or a
runtime panic. -/
inductive StopResult where
  | ret (e : Option GoErr)
  | panics
deriving DecidableEq, Repr

/-- Whether a `Stop` outcome is a normal return of a non-nil error. -/
def StopResult.isErrorReturn : StopResult → Bool
  | StopResult.ret (some _) => true
  | _ => false

/-- Mirrors `OBCEventClient.Stop`: `return ec.stream.CloseSend()`. When
no stream was ever established `ec.stream` is a nil interface, and the
method call on it panics; otherwise the call returns whatever
`CloseSend` returns. -/
def Stop (stream : Option StreamHandle) : StopResult :=
  match stream with
  | none => StopResult.panics
  | some s => StopResult.ret s.closeSendErr

/-- A prefix of messages the adapter accepts is consumed transparently:
the loop forwards each one and continues with the rest of the stream. -/
theorem processEvents_append_good (a : EventAdapter) (pre : List EventHubMessage)
    (rest : List RecvStep) (h : ∀ m ∈ pre, a.recv m = none) :
    processEvents (some a) (pre.map RecvStep.msgStep ++ rest)
      = (pre.map Call.recvCall ++ (processEvents (some a) rest).1,
         (processEvents (some a) rest).2) := by
  induction pre with
  | nil => simp
  | cons m pre ih =>
    have hm : a.recv m = none := h m (List.mem_cons_self m pre)
    have ih2 := ih (fun x hx => h x (List.mem_cons_of_mem m hx))
    simp [processEvents, hm, ih2]

/-- With a nil adapter the loop never produces an adapter call. -/
theorem processEvents_none_trace (steps : List RecvStep) :
    (processEvents none steps).1 = [] := by
  induction steps with
  | nil => rfl
  | cons s rest ih =>
    cases s with
    | msgStep m => simpa [processEvents] using ih
    | eofStep => rfl
    | errStep e => rfl

/-- With a nil adapter the loop skips message steps without effect. -/
theorem processEvents_none_skip (msgs : List EventHubMessage) (rest : List RecvStep) :
    processEvents none (msgs.map RecvStep.msgStep ++ rest) = processEvents none rest := by
  induction msgs with
  | nil => simp
  | cons m msgs ih => simpa [processEvents] using ih

/-- Concrete event payload frames for witnesses. -/
def eventA : EventHubMessage := ⟨EventVariant.transactionEvent "A"⟩

def eventB : EventHubMessage := ⟨EventVariant.transactionEvent "B"⟩

/-- An adapter with the spec's one-element interest set whose handler
always succeeds. -/
def okAdapter : EventAdapter :=
  ⟨some [⟨"block-events"⟩], fun _ => none⟩

/-- An adapter whose handler fails exactly on `eventB`. -/
def failOnB : EventAdapter :=
  ⟨some [⟨"block-events"⟩], fun m => if m = eventB then some (GoErr.mk "handler failure") else none⟩

/-- An adapter whose interest set is an empty but non-nil slice. -/
def emptyAdapter : EventAdapter := ⟨some [], fun _ => none⟩

/-- An adapter whose `GetInterestedEvents` returns a nil slice. -/
def nilInterestAdapter : EventAdapter := ⟨none, fun _ => none⟩

/-- An environment in which every external call succeeds and the
handshake sees a registration acknowledgement in time. -/
def benignEnv : StartEnv :=
  ⟨none, none, none,
   HandshakeInput.arrived (RecvOutcome.recvMsg ⟨EventVariant.registerEvent []⟩)⟩

/-- C1: the claim says a null adapter or an empty/absent interest set
makes Start fail immediately with a configuration error and no network
activity. Counterexample: with an empty but non-nil interest set and a
benign environment, Start does not fail at all — it dials, opens the
stream, registers, returns ok and starts the receive loop, because the
source only tests `ies == nil`. -/
theorem C1_counterexample :
    (Start ⟨"peer", some emptyAdapter⟩ benignEnv).result = StartResult.ok
    ∧ (Start ⟨"peer", some emptyAdapter⟩ benignEnv).acts ≠ []
    ∧ (Start ⟨"peer", some emptyAdapter⟩ benignEnv).loopStarted = true := by
  refine ⟨rfl, ?_, rfl⟩
  decide

/-- C1 (amended): when the dial succeeds, Start returns the
"no interested events" configuration error only for a nil interest
slice, and only after the dial has already happened; a nil adapter makes
Start panic after the dial instead of returning an error; an empty but
non-nil interest set is not rejected and Start proceeds to a successful
registration and a running loop when the rest of the environment is
benign. -/
theorem C1_interest_check (addr : String) (env : StartEnv) (a : EventAdapter)
    (hd : env.dialErr = none) :
    (a.getInterestedEvents = none →
      Start ⟨addr, some a⟩ env
        = ⟨[NetAction.dial], StartResult.err (GoErr.mk "no interested events"), false⟩)
    ∧ Start ⟨addr, none⟩ env = ⟨[NetAction.dial], StartResult.panics, false⟩
    ∧ (a.getInterestedEvents = some [] → env.chatErr = none → env.sendErr = none →
        env.hin = HandshakeInput.arrived (RecvOutcome.recvMsg ⟨EventVariant.registerEvent []⟩) →
        Start ⟨addr, some a⟩ env
          = ⟨[NetAction.dial, NetAction.openStream,
              NetAction.sendFrame ⟨EventVariant.registerEvent []⟩],
             StartResult.ok, true⟩) := by
  obtain ⟨d, c, s, hin⟩ := env
  simp only at hd
  subst hd
  refine ⟨fun hi => ?_, rfl, fun h1 h2 h3 h4 => ?_⟩
  · simp [Start, hi]
  · simp only at h2 h3 h4
    subst h2; subst h3; subst h4
    simp [Start, h1, register]

/-- C1 witness: a concrete nil interest slice with a successful dial
yields the configuration error, after the dial and with no loop. -/
theorem C1_witness :
    Start ⟨"peer", some nilInterestAdapter⟩ benignEnv
      = ⟨[NetAction.dial], StartResult.err (GoErr.mk "no interested events"), false⟩ :=
  (C1_interest_check "peer" benignEnv nilInterestAdapter rfl).1 rfl

/-- C2: with a non-nil adapter, when the loop's receive reports
end-of-stream after a prefix of accepted deliveries, Done is called
exactly once with nil (it is the last call in the trace) and the loop
returns nil; when it reports any other error, Done is called exactly
once with that same error, no Recv call occurs after it, and the loop
returns that error. -/
theorem C2_terminal_notification (a : EventAdapter) (pre : List EventHubMessage)
    (rest : List RecvStep) (e : GoErr) (h : ∀ m ∈ pre, a.recv m = none) :
    processEvents (some a) (pre.map RecvStep.msgStep ++ RecvStep.eofStep :: rest)
      = (pre.map Call.recvCall ++ [Call.doneCall none], ExitCause.eofExit)
    ∧ processEvents (some a) (pre.map RecvStep.msgStep ++ RecvStep.errStep e :: rest)
      = (pre.map Call.recvCall ++ [Call.doneCall (some e)], ExitCause.recvErrExit e)
    ∧ loopReturn ExitCause.eofExit = some none
    ∧ loopReturn (ExitCause.recvErrExit e) = some (some e) := by
  refine ⟨?_, ?_, rfl, rfl⟩ <;>
    rw [processEvents_append_good a pre _ h] <;> simp [processEvents]

/-- C2 witness: one delivered event and then end-of-stream, and one
delivered event and then a transport reset, at a concrete adapter. -/
theorem C2_witness :
    processEvents (some okAdapter)
        ([eventA].map RecvStep.msgStep ++ RecvStep.eofStep :: [])
      = ([eventA].map Call.recvCall ++ [Call.doneCall none], ExitCause.eofExit)
    ∧ processEvents (some okAdapter)
        ([eventA].map RecvStep.msgStep ++ RecvStep.errStep (GoErr.mk "transport reset") :: [])
      = ([eventA].map Call.recvCall ++ [Call.doneCall (some (GoErr.mk "transport reset"))],
         ExitCause.recvErrExit (GoErr.mk "transport reset"))
    ∧ loopReturn ExitCause.eofExit = some none
    ∧ loopReturn (ExitCause.recvErrExit (GoErr.mk "transport reset"))
      = some (some (GoErr.mk "transport reset")) :=
  C2_terminal_notification okAdapter [eventA] [] (GoErr.mk "transport reset") (by decide)

/-- C3: the claim says Stop with no active stream returns an error
rather than succeeding or crashing. Counterexample: with a nil stream,
Stop does not return an error at all — it panics on the nil interface
method call. -/
theorem C3_counterexample :
    (Stop none).isErrorReturn = false ∧ Stop none = StopResult.panics := by
  decide

/-- C3 (amended): Stop on a client with no active stream panics with a
nil-interface dereference instead of returning an error; with an active
stream it simply returns what CloseSend returns. -/
theorem C3_stop_no_stream :
    Stop none = StopResult.panics
    ∧ ∀ h : StreamHandle, Stop (some h) = StopResult.ret h.closeSendErr :=
  ⟨rfl, fun _ => rfl⟩

/-- C4: when the dial, the stream open and the registration send all
succeed but the handshake select times out, Start returns the
"timeout waiting for registration" error, the receive loop is never
started (so no Done can occur for this attempt), and the actions stop at
the sent registration frame. -/
theorem C4_handshake_timeout (addr : String) (a : EventAdapter)
    (ies : List InterestedEvent) (env : StartEnv)
    (hd : env.dialErr = none) (hc : env.chatErr = none) (hs : env.sendErr = none)
    (hi : a.getInterestedEvents = some ies) (ht : env.hin = HandshakeInput.timedOut) :
    Start ⟨addr, some a⟩ env
      = ⟨[NetAction.dial, NetAction.openStream,
          NetAction.sendFrame ⟨EventVariant.registerEvent ies⟩],
         StartResult.err (GoErr.mk "timeout waiting for registration"), false⟩ := by
  obtain ⟨d, c, s, hin⟩ := env
  simp only at hd hc hs ht
  subst hd; subst hc; subst hs; subst ht
  simp [Start, hi, register]

/-- C4 witness: a concrete timed-out handshake with otherwise benign
environment. -/
theorem C4_witness :
    Start ⟨"peer", some okAdapter⟩ ⟨none, none, none, HandshakeInput.timedOut⟩
      = ⟨[NetAction.dial, NetAction.openStream,
          NetAction.sendFrame ⟨EventVariant.registerEvent [⟨"block-events"⟩]⟩],
         StartResult.err (GoErr.mk "timeout waiting for registration"), false⟩ :=
  C4_handshake_timeout "peer" okAdapter [⟨"block-events"⟩]
    ⟨none, none, none, HandshakeInput.timedOut⟩ rfl rfl rfl rfl rfl

/-- C5: the first inbound frame, when it arrives in time after a
successful send, is classified into exactly one of four outcomes: a
registration acknowledgement makes register succeed, an event payload
fails with the Transaction protocol error, a nil event fails with the
nil-object error, and any other variant fails with the unrecognized
registration-object error. -/
theorem C5_first_frame_classification (ies : List InterestedEvent) (m : EventHubMessage) :
    ((∃ ackIes, m.event = EventVariant.registerEvent ackIes) →
      register ies none (HandshakeInput.arrived (RecvOutcome.recvMsg m)) = none)
    ∧ ((∃ p, m.event = EventVariant.transactionEvent p) →
      register ies none (HandshakeInput.arrived (RecvOutcome.recvMsg m))
        = some (GoErr.mk "invalid Transaction object for register"))
    ∧ (m.event = EventVariant.nilEvent →
      register ies none (HandshakeInput.arrived (RecvOutcome.recvMsg m))
        = some (GoErr.mk "invalid nil object for register"))
    ∧ (m.event = EventVariant.otherEvent →
      register ies none (HandshakeInput.arrived (RecvOutcome.recvMsg m))
        = some (GoErr.mk "invalid registration object"))
    ∧ (register ies none (HandshakeInput.arrived (RecvOutcome.recvMsg m)) = none
       ∨ register ies none (HandshakeInput.arrived (RecvOutcome.recvMsg m))
           = some (GoErr.mk "invalid Transaction object for register")
       ∨ register ies none (HandshakeInput.arrived (RecvOutcome.recvMsg m))
           = some (GoErr.mk "invalid nil object for register")
       ∨ register ies none (HandshakeInput.arrived (RecvOutcome.recvMsg m))
           = some (GoErr.mk "invalid registration object")) := by
  obtain ⟨ev⟩ := m
  cases ev <;> simp [register]

/-- C5 witness: a concrete registration acknowledgement makes register
succeed. -/
theorem C5_witness :
    register [] none
        (HandshakeInput.arrived (RecvOutcome.recvMsg ⟨EventVariant.registerEvent []⟩))
      = none :=
  (C5_first_frame_classification [] ⟨EventVariant.registerEvent []⟩).1 ⟨[], rfl⟩

/-- C6: when the adapter's handler rejects a delivered payload after a
prefix of accepted ones, the loop calls Recv for that payload, pulls no
further frames (the rest of the stream is untouched), makes no Done
call, and returns the handler's error. -/
theorem C6_handler_error_aborts (a : EventAdapter) (pre : List EventHubMessage)
    (m : EventHubMessage) (e : GoErr) (rest : List RecvStep)
    (h : ∀ x ∈ pre, a.recv x = none) (hm : a.recv m = some e) :
    processEvents (some a) (pre.map RecvStep.msgStep ++ RecvStep.msgStep m :: rest)
      = ((pre ++ [m]).map Call.recvCall, ExitCause.handlerErrExit e)
    ∧ loopReturn (ExitCause.handlerErrExit e) = some (some e) := by
  refine ⟨?_, rfl⟩
  rw [processEvents_append_good a pre _ h]
  simp [processEvents, hm]

/-- C6 witness: a concrete adapter that rejects event B after accepting
event A; the end-of-stream step behind it is never consumed and no Done
appears in the trace. -/
theorem C6_witness :
    processEvents (some failOnB)
        ([eventA].map RecvStep.msgStep ++ RecvStep.msgStep eventB :: [RecvStep.eofStep])
      = (([eventA] ++ [eventB]).map Call.recvCall,
         ExitCause.handlerErrExit (GoErr.mk "handler failure"))
    ∧ loopReturn (ExitCause.handlerErrExit (GoErr.mk "handler failure"))
      = some (some (GoErr.mk "handler failure")) :=
  C6_handler_error_aborts failOnB [eventA] eventB (GoErr.mk "handler failure")
    [RecvStep.eofStep] (by decide) (by decide)

/-- C7: for a stream of N accepted payloads followed by a clean close,
the loop calls Recv exactly once per payload, in the order received, and
then calls Done(nil) exactly once, returning nil. -/
theorem C7_in_order_delivery (a : EventAdapter) (msgs : List EventHubMessage)
    (rest : List RecvStep) (h : ∀ m ∈ msgs, a.recv m = none) :
    processEvents (some a) (msgs.map RecvStep.msgStep ++ RecvStep.eofStep :: rest)
      = (msgs.map Call.recvCall ++ [Call.doneCall none], ExitCause.eofExit)
    ∧ loopReturn ExitCause.eofExit = some none := by
  refine ⟨?_, rfl⟩
  rw [processEvents_append_good a msgs _ h]
  simp [processEvents]

/-- C7 witness: the spec scenario — events A and B then end-of-stream
produce the call sequence Recv(A), Recv(B), Done(nil). -/
theorem C7_witness :
    processEvents (some okAdapter)
        ([eventA, eventB].map RecvStep.msgStep ++ RecvStep.eofStep :: [])
      = ([eventA, eventB].map Call.recvCall ++ [Call.doneCall none], ExitCause.eofExit)
    ∧ loopReturn ExitCause.eofExit = some none :=
  C7_in_order_delivery okAdapter [eventA, eventB] [] (by decide)

/-- C8: the claim requires that the helper task never leaks past the
timeout path. In the source, after the select takes the timeout branch,
a helper whose Recv then yields a frame blocks forever on the unbuffered
regChan send, whose only receiver was abandoned — the task never
terminates. The other two conjuncts show the paths on which it does
terminate (Recv error, or the select won by the helper). -/
theorem C8_helper_goroutine_leak :
    helperTerminates true (RecvOutcome.recvMsg ⟨EventVariant.registerEvent []⟩) = false
    ∧ helperTerminates true (RecvOutcome.recvErr (GoErr.mk "recv failed")) = true
    ∧ helperTerminates false (RecvOutcome.recvMsg ⟨EventVariant.registerEvent []⟩) = true := by
  decide

/-- C9: register accepts a registration acknowledgement without
inspecting its payload: whatever interest set the acknowledgement
carries, and whatever set was sent, register returns nil. -/
theorem C9_ack_not_inspected (sent ackIes : List InterestedEvent) :
    register sent none
        (HandshakeInput.arrived (RecvOutcome.recvMsg ⟨EventVariant.registerEvent ackIes⟩))
      = none := rfl

/-- C10: with a nil adapter the loop makes no adapter call at all on any
stream, and still drains message steps until end-of-stream (returning
nil) or a receive error (returning that error), with no Done in either
case. -/
theorem C10_nil_adapter (steps : List RecvStep) (msgs : List EventHubMessage)
    (rest : List RecvStep) (e : GoErr) :
    (processEvents none steps).1 = []
    ∧ processEvents none (msgs.map RecvStep.msgStep ++ RecvStep.eofStep :: rest)
      = ([], ExitCause.eofExit)
    ∧ processEvents none (msgs.map RecvStep.msgStep ++ RecvStep.errStep e :: rest)
      = ([], ExitCause.recvErrExit e)
    ∧ loopReturn ExitCause.eofExit = some none
    ∧ loopReturn (ExitCause.recvErrExit e) = some (some e) := by
  refine ⟨processEvents_none_trace steps, ?_, ?_, rfl, rfl⟩ <;>
    rw [processEvents_none_skip] <;> rfl

end Consumer
